import Mathlib

/-
Verification of the momentry week-indexing and date-mapping subsystem.

The JavaScript source manipulates Date values.  The embedding models a
civil date as its day number: an integer counting days since 1970-01-01
(the JS epoch), and a timestamp as an integer count of milliseconds since
the epoch.  The host environment's local time zone is taken to be UTC, so
the local accessors (getFullYear, getDate, setDate, setHours) agree with
the UTC ones; the app's date values (birth dates parsed from
"YYYY-MM-DD" strings, week anchors built from Date.UTC) all sit at UTC
midnight, so every quantity the subsystem computes is an exact integer.
Division written with / and % below is floor division and Euclidean
remainder; for the positive literal divisors used here this coincides
with JS Math.floor(x/y) and with JS % on non-negative operands.
-/

namespace Momentry

/-- Milliseconds per day, 1000*60*60*24 as written in the source. -/
def msPerDay : Int := 86400000

/-- Day number of January 1 of (proleptic Gregorian) year y, i.e. the
model of Date.UTC(y, 0, 1) at day granularity, in closed Rata Die form. -/
def jan1 (y : Int) : Int :=
  365 * (y - 1) + (y - 1) / 4 - (y - 1) / 100 + (y - 1) / 400 + 1 - 719163

/-- Gregorian calendar year containing day number d: the model of JS
getUTCFullYear (and, with the UTC environment, getFullYear) on a date at
day granularity.  Computed by a linear estimate followed by a correction
step; yearOfDay_bracket below verifies it against jan1. -/
def yearOfDay (d : Int) : Int :=
  let y0 := (400 * (d + 719162)) / 146097 + 1
  if d < jan1 y0 then y0 - 1 else if d < jan1 (y0 + 1) then y0 else y0 + 1

/-- Day of week of day number d: the model of JS getUTCDay, 0 = Sunday
through 6 = Saturday (1970-01-01 was a Thursday). -/
def dow (d : Int) : Int := (d + 4) % 7

/-- ISO day-of-week helper, the translation of the source idiom
"d.getUTCDay() || 7": 1 = Monday through 7 = Sunday. -/
def isoWeekday (d : Int) : Int := if dow d = 0 then 7 else dow d

/-- Locator returned by getISOWeekNumber: an object with fields
weekNumber (1..53) and year (the ISO year). -/
structure ISOWeek where
  weekNumber : Int
  year : Int
deriving Repr, DecidableEq

/-- getISOWeekNumber from DateUtils.js (the UTC variant): shift the date
to the Thursday of its Monday-start week, take that Thursday's calendar
year as the ISO year, and count weeks from January 1 of that year.  The
source first re-encodes the input via Date.UTC(y, m, d), which at day
granularity is the identity.  Math.ceil(x/7) on an integer x is
(x + 6) / 7 in floor division. -/
def getISOWeekNumber (d : Int) : ISOWeek :=
  let day := isoWeekday d
  let thursday := d + 4 - day
  let isoYear := yearOfDay thursday
  let yearStart := jan1 isoYear
  let weekNo := (thursday - yearStart + 1 + 6) / 7
  ⟨weekNo, isoYear⟩

/-- getISOWeekNumber from the older DateUtils revision (local-time
variant, identical day arithmetic under the UTC environment): same
Thursday shift, plus explicit fix-up branches for weekNo = 0 and
weekNo = 53.  Dec 31 of year y is day jan1 (y+1) - 1. -/
def getISOWeekNumberLocal (d : Int) : ISOWeek :=
  let dayNum := isoWeekday d
  let thursday := d + 4 - dayNum
  let isoYear := yearOfDay thursday
  let yearStart := jan1 isoYear
  let weekNo := (thursday - yearStart + 1 + 6) / 7
  let fixedLow : Int × Int :=
    if weekNo = 0 then
      let prevYear := isoYear - 1
      let prevYearStart := jan1 prevYear
      let prevYearEnd := jan1 (prevYear + 1) - 1
      let prevDayNum := isoWeekday prevYearEnd
      let prevThursday := prevYearEnd + 4 - prevDayNum
      (prevYear, (prevThursday - prevYearStart + 1 + 6) / 7)
    else (isoYear, weekNo)
  let isoYear2 := fixedLow.1
  let weekNo2 := fixedLow.2
  if weekNo2 = 53 then
    let nextYearJan1 := jan1 (isoYear2 + 1)
    let nextYearDayNum := isoWeekday nextYearJan1
    if nextYearDayNum ≤ 4 then ⟨1, isoYear2 + 1⟩ else ⟨weekNo2, isoYear2⟩
  else ⟨weekNo2, isoYear2⟩

/-- getDateFromWeekIndex from DateUtils.js: the Thursday of ISO week
weekIndex+1 of the given year - find the first Thursday on or after
January 1, then step forward weekIndex whole weeks. -/
def getDateFromWeekIndex (weekIndex year : Int) : Int :=
  let jan1d := jan1 year
  let dayOfWeek := dow jan1d
  let daysToThursday := (4 - dayOfWeek + 7) % 7
  let firstThursday := jan1d + daysToThursday
  firstThursday + weekIndex * 7

/-- getWeeksSinceBirth from DateUtils.js (the same arithmetic as the
app-object wrapper in sketch.js): with no birth date the sentinel
weekIndex + 1; otherwise floor the day difference between the week's
Thursday anchor and the birth date down to whole weeks, clamped at 0. -/
def getWeeksSinceBirth (weekIndex year : Int) (birthDate : Option Int) : Int :=
  match birthDate with
  | none => weekIndex + 1
  | some b =>
    let weekStartDate := getDateFromWeekIndex weekIndex year
    let diffDays := weekStartDate - b
    max 0 (diffDays / 7)

/-- Result of getWeekDateRange: startDate and endDate as millisecond
timestamps (the source normalizes the Monday to 00:00:00.000 and the
Sunday to 23:59:59.999). -/
structure WeekRange where
  startDate : Int
  endDate : Int
deriving Repr, DecidableEq

/-- getWeekDateRange from DateUtils.js: Monday is 3 days before the
week's Thursday anchor, Sunday is 6 days after Monday; start of day and
end of day normalization expressed in milliseconds. -/
def getWeekDateRange (weekIndex year : Int) : WeekRange :=
  let weekThursday := getDateFromWeekIndex weekIndex year
  let monday := weekThursday - 3
  let sunday := monday + 6
  ⟨monday * msPerDay, sunday * msPerDay + (msPerDay - 1)⟩

/-- Result of getYearAndWeekIndexFromWeeksSinceBirth: an object with
fields year and weekIndex (0-based). -/
structure YearWeek where
  year : Int
  weekIndex : Int
deriving Repr, DecidableEq

/-- getYearAndWeekIndexFromWeeksSinceBirth from DateUtils.js: null when
the birth date is unset or the ordinal is negative; otherwise anchor at
the Monday of the birth date's own ISO week, step forward weeksSinceBirth
whole weeks, and read off that date's ISO week and year. -/
def getYearAndWeekIndexFromWeeksSinceBirth (weeksSinceBirth : Int)
    (birthDate : Option Int) : Option YearWeek :=
  match birthDate with
  | none => none
  | some b =>
    if weeksSinceBirth < 0 then none
    else
      let birthWeekInfo := getISOWeekNumber b
      let birthWeekRange := getWeekDateRange (birthWeekInfo.weekNumber - 1) birthWeekInfo.year
      let birthWeekStart := birthWeekRange.startDate / msPerDay
      let targetDate := birthWeekStart + weeksSinceBirth * 7
      let isoWeekInfo := getISOWeekNumber targetDate
      some ⟨isoWeekInfo.year, isoWeekInfo.weekNumber - 1⟩

/-- One memory entry as stored per week.  Every field can be absent in a
raw persisted object, so each is an Option. -/
structure MemoryEntry where
  id : Option String
  title : Option String
  text : Option String
  date : Option String
  timestamp : Option String
  imageData : Option String
deriving Repr, DecidableEq

/-- One week record as the core sees it: the current shape has a
memories array, legacy records instead carry a single string field
named memory; either may be absent on raw data. -/
structure WeekData where
  memories : Option (List MemoryEntry)
  memory : Option String
deriving Repr, DecidableEq

/-- WeekCircle.checkHasData: truthiness chain over the week's data
reference - the slot has data when the record exists and its memories
array is non-empty, or its legacy memory string is non-empty. -/
def checkHasData (data : Option WeekData) : Bool :=
  match data with
  | none => false
  | some d =>
    (match d.memories with
     | some ms => decide (0 < ms.length)
     | none => false) ||
    (match d.memory with
     | some s => decide (0 < s.length)
     | none => false)

/-- Per-circle cached state produced by WeekCircle.updateState. -/
structure WeekState where
  weekRange : WeekRange
  isBeforeBirth : Bool
  isPast : Bool
  hasData : Bool
deriving Repr, DecidableEq

/-- WeekCircle.updateState: computes the week range once, then the
week's Monday at start of day; isBeforeBirth compares it with the birth
date at start of day, isPast with today at start of day, and hasData
caches checkHasData.  Birth date and today are day numbers (both sit at
start of day already under the UTC environment). -/
def updateState (id currentDisplayYear : Int) (birthDate : Option Int)
    (today : Int) (data : Option WeekData) : WeekState :=
  let weekRange := getWeekDateRange id currentDisplayYear
  let weekMondayStart := weekRange.startDate / msPerDay
  let isBeforeBirth :=
    match birthDate with
    | some b => decide (weekMondayStart < b)
    | none => false
  let isPast := decide (weekMondayStart < today)
  ⟨weekRange, isBeforeBirth, isPast, checkHasData data⟩

/-- The isCurrent test in WeekCircle.display: the circle id must equal
the currentWeekIndex passed in by the sketch AND the displayed year must
equal today's calendar year (today.getFullYear()). -/
def displayIsCurrent (id currentWeekIndex currentDisplayYear : Int)
    (today : Int) : Bool :=
  decide (id = currentWeekIndex) && decide (currentDisplayYear = yearOfDay today)

/-- The currentWeekIndex computation in initializeMainApp: the 0-based
ISO week index of now, demoted to -1 when the displayed year is not
now's ISO year. -/
def appCurrentWeekIndex (year : Int) (today : Int) : Int :=
  let isoWeekInfo := getISOWeekNumber today
  let currentWeekIndex := isoWeekInfo.weekNumber - 1
  if year ≠ isoWeekInfo.year then -1 else currentWeekIndex

/-- The birth-year clamp at the top of initializeMainApp: a requested
year before the birth year is replaced by the birth year itself. -/
def clampToBirthYear (year : Int) (birthDate : Option Int) : Int :=
  match birthDate with
  | none => year
  | some b =>
    let birthYear := yearOfDay b
    if year < birthYear then birthYear else year

/-- One constructed week slot: the WeekCircle fields that carry grid
state (layout coordinates are presentation only and omitted). -/
structure Slot where
  weekID : Int
  weeksSinceBirth : Int
  data : Option WeekData
  state : WeekState
deriving Repr, DecidableEq

/-- Body of the inner column loop of initializeMainApp: push one
WeekCircle, built from the running weekID counter, its data reference,
its weeks since birth and its cached state, and bump the counter. -/
def pushWeek (year : Int) (birthDate : Option Int) (today : Int)
    (yearData : List WeekData) (st2 : List Slot × Nat) (_c : Nat) :
    List Slot × Nat :=
  let weekID := st2.2
  let dataForThisWeek := yearData[weekID]?
  let wsb := getWeeksSinceBirth (weekID : Int) year birthDate
  (st2.1 ++ [⟨(weekID : Int), wsb, dataForThisWeek,
              updateState (weekID : Int) year birthDate today dataForThisWeek⟩],
   weekID + 1)

/-- The grid construction loop of initializeMainApp: 7 rows, even rows
holding 7 circles and odd rows 8, with weekID counting the circles
pushed so far. -/
def buildWeeks (year : Int) (birthDate : Option Int) (today : Int)
    (yearData : List WeekData) : List Slot :=
  ((List.range 7).foldl
    (fun (st : List Slot × Nat) r =>
      let numCols := if r % 2 = 0 then 7 else 8
      (List.range numCols).foldl (pushWeek year birthDate today yearData) st)
    ([], 0)).1

/-- The app state produced by initializeMainApp that the claims are
about: the displayed year, the current week index, and the slots. -/
structure AppView where
  currentDisplayYear : Int
  currentWeekIndex : Int
  weeks : List Slot
deriving Repr, DecidableEq

/-- initializeMainApp: clamp the requested year at the birth year, fix
the current week index from today, load the year data from the store,
and build the 52-slot grid. -/
def initializeMainApp (year : Int) (birthDate : Option Int) (today : Int)
    (store : Int → List WeekData) : AppView :=
  let year2 := clampToBirthYear year birthDate
  let currentWeekIndex := appCurrentWeekIndex year2 today
  let yearData := store year2
  ⟨year2, currentWeekIndex, buildWeeks year2 birthDate today yearData⟩

/-- navigateToYear: refuses (returns none, leaving the displayed year
unchanged) when no birth date is set, when the target year precedes the
birth year, when a transition is active, or when the target is already
displayed; otherwise accepts the target year for the fade transition. -/
def navigateToYear (year : Int) (birthDate : Option Int)
    (transitionActive : Bool) (currentDisplayYear : Int) : Option Int :=
  match birthDate with
  | none => none
  | some b =>
    let birthYear := yearOfDay b
    if year < birthYear then none
    else if transitionActive || year = currentDisplayYear then none
    else some year

/-- One persisted localStorage entry as loadData sees it after
JSON.parse: either unparseable (the parse throws) or a parsed array of
week records. -/
inductive StoredEntry where
  | corrupt : StoredEntry
  | valid : List WeekData -> StoredEntry
deriving Repr, DecidableEq

/-- Environment for migrateOldDataFormat: the generated memory ids
(generateMemoryId, indexed here by week position), the current date
string and the current timestamp string used as defaults. -/
structure MigrationEnv where
  genId : Nat → String
  todayStr : String
  nowStr : String

/-- JS "x || dflt" on a possibly-absent string: the default replaces
both an absent field and an empty (falsy) string. -/
def jsOr (x : Option String) (dflt : String) : String :=
  match x with
  | some s => if 0 < s.length then s else dflt
  | none => dflt

/-- JS "x || null" on a possibly-absent string. -/
def jsOrNull (x : Option String) : Option String :=
  match x with
  | some s => if 0 < s.length then some s else none
  | none => none

/-- migrateOldDataFormat from js/storage.js: weeks with a legacy string
memory become a one-entry (or empty, when the string is empty) memories
array; weeks already holding a memories array get every entry's fields
normalized with defaults; anything else becomes an empty week. -/
def migrateOldDataFormat (env : MigrationEnv) (data : List WeekData) : List WeekData :=
  data.enum.map (fun p =>
    let i := p.1
    let week := p.2
    match week.memory with
    | some memoryStr =>
      ⟨some (if 0 < memoryStr.length then
          [⟨some (env.genId i), none, some memoryStr,
            some env.todayStr, some env.nowStr, none⟩]
        else []), none⟩
    | none =>
      match week.memories with
      | some ms =>
        ⟨some (ms.map (fun mem =>
          ⟨some (jsOr mem.id (env.genId i)),
           jsOrNull mem.title,
           some (jsOr mem.text ""),
           some (jsOr mem.date env.todayStr),
           some (jsOr mem.timestamp env.nowStr),
           jsOrNull mem.imageData⟩)), none⟩
      | none => ⟨some [], none⟩)

/-- The old-format test used twice in loadData: the parsed array is
non-empty and its first record carries the legacy string memory field. -/
def needsMigration (data : List WeekData) : Bool :=
  match data with
  | [] => false
  | w :: _ => w.memory.isSome

/-- loadData from js/storage.js, modelled over the two localStorage
entries it reads: oldEntry for the legacy key momentryData and yearEntry
for the key momentryData_year.  none models the JS function returning
undefined.  The legacy-key block returns early only when the requested
year is the current year; a corrupt legacy entry is discarded.  The
year-key block returns the (possibly migrated) parsed array; when the
entry is corrupt the catch clears the key and control falls off the end
of the function, so the call returns undefined; when the entry is absent
a fresh 52-element array of empty weeks is returned. -/
def loadData (year currentYear : Int) (env : MigrationEnv)
    (oldEntry : Option StoredEntry) (yearEntry : Option StoredEntry) :
    Option (List WeekData) :=
  let oldResult : Option (List WeekData) :=
    match oldEntry with
    | some (.valid parsedData) =>
      let parsedData :=
        if needsMigration parsedData then migrateOldDataFormat env parsedData
        else parsedData
      if year = currentYear then some parsedData else none
    | _ => none
  match oldResult with
  | some r => some r
  | none =>
    match yearEntry with
    | some (.valid parsedData) =>
      some (if needsMigration parsedData then migrateOldDataFormat env parsedData
            else parsedData)
    | some .corrupt => none
    | none => some (List.replicate 52 ⟨some [], none⟩)

/-- The correction step in yearOfDay is exact: day d lies on or after
January 1 of yearOfDay d and strictly before January 1 of the next
year. -/
theorem yearOfDay_bracket (d : Int) :
    jan1 (yearOfDay d) ≤ d ∧ d < jan1 (yearOfDay d + 1) := by
  simp only [yearOfDay]
  split
  · unfold jan1 at *
    omega
  · split
    · unfold jan1 at *
      omega
    · unfold jan1 at *
      omega

/-- Feeding a date's ISO week number and ISO year back through
getDateFromWeekIndex recovers exactly the Thursday of that date's
Monday-start week. -/
theorem getDateFromWeekIndex_recover (d : Int) :
    getDateFromWeekIndex ((getISOWeekNumber d).weekNumber - 1) (getISOWeekNumber d).year
      = d + 4 - isoWeekday d := by
  have hb := yearOfDay_bracket (d + 4 - isoWeekday d)
  simp only [getISOWeekNumber, getDateFromWeekIndex, isoWeekday, dow] at *
  by_cases hc : (d + 4) % 7 = 0
  · simp only [if_pos hc] at *
    omega
  · simp only [if_neg hc] at *
    omega

/-- Closed form of the inverse mapping for a set birth date and a
non-negative ordinal: it reads off the ISO week of the day reached from
the Monday of the birth week after n whole weeks. -/
theorem inverse_closed_form (n b : Int) (hn : 0 ≤ n) :
    getYearAndWeekIndexFromWeeksSinceBirth n (some b)
      = some ⟨(getISOWeekNumber (b + 4 - isoWeekday b - 3 + n * 7)).year,
              (getISOWeekNumber (b + 4 - isoWeekday b - 3 + n * 7)).weekNumber - 1⟩ := by
  simp only [getYearAndWeekIndexFromWeeksSinceBirth, getWeekDateRange]
  rw [if_neg (by omega)]
  rw [Int.mul_ediv_cancel _ (by norm_num [msPerDay] : msPerDay ≠ 0)]
  rw [getDateFromWeekIndex_recover b]

/-- The forward mapping evaluated at the ISO locator of an arbitrary
day t: it floors the gap between the Thursday of t's week and the birth
date down to whole weeks, clamped at 0. -/
theorem forward_at_iso (t b : Int) :
    getWeeksSinceBirth ((getISOWeekNumber t).weekNumber - 1) (getISOWeekNumber t).year (some b)
      = max 0 ((t + 4 - isoWeekday t - b) / 7) := by
  simp only [getWeeksSinceBirth]
  rw [getDateFromWeekIndex_recover t]

/-- Claim C1, as stated, is false on the code: for the birth date
2021-01-01 (day 18628, a Friday, ISO week 53 of 2020) and ordinal n = 1,
the inverse mapping yields year 2021 and weekIndex 0, but the forward
mapping on that pair returns 0, not 1. -/
theorem claim_C1_counterexample :
    getYearAndWeekIndexFromWeeksSinceBirth 1 (some 18628) = some ⟨2021, 0⟩
    ∧ getWeeksSinceBirth 0 2021 (some 18628) = 0
    ∧ jan1 2021 = 18628 ∧ dow 18628 = 5 := by decide

/-- Claim C1 (amended): for a birth date falling on Monday through
Thursday of its own ISO week, and every ordinal n in 0..520, the inverse
mapping followed by the forward mapping reproduces n exactly. -/
theorem claim_C1_roundtrip_amended (b n : Int) (hbirth : isoWeekday b ≤ 4)
    (hn0 : 0 ≤ n) (hn520 : n ≤ 520) :
    ∃ yw : YearWeek,
      getYearAndWeekIndexFromWeeksSinceBirth n (some b) = some yw ∧
      getWeeksSinceBirth yw.weekIndex yw.year (some b) = n := by
  refine ⟨_, inverse_closed_form n b hn0, ?_⟩
  show getWeeksSinceBirth
      ((getISOWeekNumber (b + 4 - isoWeekday b - 3 + n * 7)).weekNumber - 1)
      (getISOWeekNumber (b + 4 - isoWeekday b - 3 + n * 7)).year (some b) = n
  rw [forward_at_iso]
  simp only [isoWeekday, dow] at hbirth ⊢
  by_cases hc : (b + 4) % 7 = 0
  · rw [if_pos hc] at hbirth
    omega
  · simp only [if_neg hc] at hbirth ⊢
    split
    · omega
    · omega

/-- Witness for claim C1 (amended): birth 2024-01-01 (day 19723, a
Monday), n = 5. -/
theorem claim_C1_witness :
    ∃ yw : YearWeek,
      getYearAndWeekIndexFromWeeksSinceBirth 5 (some 19723) = some yw ∧
      getWeeksSinceBirth yw.weekIndex yw.year (some 19723) = 5 :=
  claim_C1_roundtrip_amended 19723 5 (by decide) (by decide) (by decide)

/-- Claim C2: getISOWeekNumber at 2021-01-01 (day 18628 = jan1 2021)
returns week 53 of ISO year 2020, and at 2024-12-31 (day 20088 =
jan1 2025 - 1) returns week 1 of ISO year 2025; the older local-time
revision agrees on both dates. -/
theorem claim_C2_iso_boundaries :
    getISOWeekNumber 18628 = ⟨53, 2020⟩ ∧ getISOWeekNumber 20088 = ⟨1, 2025⟩
    ∧ getISOWeekNumberLocal 18628 = ⟨53, 2020⟩
    ∧ getISOWeekNumberLocal 20088 = ⟨1, 2025⟩
    ∧ jan1 2021 = 18628 ∧ jan1 2025 - 1 = 20088 := by decide

/-- Claim C4: with a birth date set, getWeeksSinceBirth is never
negative, and when the whole queried week (through its Sunday end)
precedes the birth date it returns exactly 0. -/
theorem claim_C4_nonnegative_saturation (weekIndex year b : Int) :
    0 ≤ getWeeksSinceBirth weekIndex year (some b)
    ∧ ((getWeekDateRange weekIndex year).endDate / msPerDay < b →
        getWeeksSinceBirth weekIndex year (some b) = 0) := by
  simp only [getWeeksSinceBirth, getWeekDateRange, getDateFromWeekIndex, msPerDay, dow]
  constructor
  · omega
  · intro h
    omega

/-- Witness for claim C4: week 0 of 2024 against a far-future birth
date (day 99999 is in 2243). -/
theorem claim_C4_witness :
    getWeeksSinceBirth 0 2024 (some 99999) = 0
    ∧ 0 ≤ getWeeksSinceBirth 0 2024 (some 99999) :=
  ⟨(claim_C4_nonnegative_saturation 0 2024 99999).2 (by decide),
   (claim_C4_nonnegative_saturation 0 2024 99999).1⟩

/-- Claim C5: the inverse mapping returns none exactly when the birth
date is unset or the ordinal is negative, and is some for every
non-negative ordinal with a set birth date (the embedding is a total
function, mirroring that the source returns null rather than throwing). -/
theorem claim_C5_null_exactly (n : Int) (birthDate : Option Int) :
    (getYearAndWeekIndexFromWeeksSinceBirth n birthDate = none
      ↔ (birthDate = none ∨ n < 0))
    ∧ (∀ b : Int, birthDate = some b → 0 ≤ n →
        (getYearAndWeekIndexFromWeeksSinceBirth n birthDate).isSome = true) := by
  cases birthDate with
  | none => simp [getYearAndWeekIndexFromWeeksSinceBirth]
  | some b =>
    simp only [getYearAndWeekIndexFromWeeksSinceBirth]
    by_cases h : n < 0
    · simp [h]
    · simp [h]

/-- Witness for claim C5: ordinal -1 gives none, ordinal 3 gives a
value, for birth day 18628. -/
theorem claim_C5_witness :
    getYearAndWeekIndexFromWeeksSinceBirth (-1) (some 18628) = none
    ∧ (getYearAndWeekIndexFromWeeksSinceBirth 3 (some 18628)).isSome = true :=
  ⟨(claim_C5_null_exactly (-1) (some 18628)).1.mpr (Or.inr (by decide)),
   (claim_C5_null_exactly 3 (some 18628)).2 18628 rfl (by decide)⟩

/-- Claim C8: getWeekDateRange 0 2024 starts at Monday 2024-01-01 (day
19723 = jan1 2024, day of week 1) at start of day and ends at Sunday
2024-01-07 (day of week 0) at 23:59:59.999. -/
theorem claim_C8_week_range_2024 :
    (getWeekDateRange 0 2024).startDate = jan1 2024 * msPerDay
    ∧ (getWeekDateRange 0 2024).endDate = (jan1 2024 + 6) * msPerDay + (msPerDay - 1)
    ∧ jan1 2024 = 19723 ∧ dow (jan1 2024) = 1 ∧ dow (jan1 2024 + 6) = 0 := by decide

/-- Claim C3, as stated, is false on the code: on 2024-12-31 (day 20088,
ISO week 1 of ISO year 2025, calendar year 2024), with displayed year
2025, slot 0 is today's ISO week in today's ISO year, yet the display
test rejects it because 2025 is not today's calendar year. -/
theorem claim_C3_counterexample :
    displayIsCurrent 0 (appCurrentWeekIndex 2025 20088) 2025 20088 = false
    ∧ (getISOWeekNumber 20088).weekNumber - 1 = 0
    ∧ (getISOWeekNumber 20088).year = 2025
    ∧ yearOfDay 20088 = 2024 ∧ jan1 2025 - 1 = 20088 := by decide

/-- Claim C3 (amended): a slot with non-negative index is marked current
iff its index equals today's 0-based ISO week index AND the displayed
year equals today's ISO year AND the displayed year equals today's
Gregorian calendar year. -/
theorem claim_C3_is_current_amended (slotIndex year today : Int)
    (hid : 0 ≤ slotIndex) :
    displayIsCurrent slotIndex (appCurrentWeekIndex year today) year today = true
      ↔ (slotIndex = (getISOWeekNumber today).weekNumber - 1
         ∧ year = (getISOWeekNumber today).year
         ∧ year = yearOfDay today) := by
  simp only [displayIsCurrent, appCurrentWeekIndex, Bool.and_eq_true, decide_eq_true_eq]
  by_cases h : year ≠ (getISOWeekNumber today).year
  · rw [if_pos h]
    omega
  · rw [if_neg h]
    omega

/-- Witness for claim C3 (amended): on 2025-01-01 (day 20089, ISO week 1
of 2025, calendar year 2025) with displayed year 2025, slot 0 is marked
current. -/
theorem claim_C3_witness :
    displayIsCurrent 0 (appCurrentWeekIndex 2025 20089) 2025 20089 = true :=
  (claim_C3_is_current_amended 0 2025 20089 (by decide)).mpr (by decide)

/-- Folding pushWeek over any column list grows the slot list by the
number of columns. -/
theorem pushWeek_foldl_length (year : Int) (birthDate : Option Int)
    (today : Int) (yearData : List WeekData) (l : List Nat) :
    ∀ st : List Slot × Nat,
      (l.foldl (pushWeek year birthDate today yearData) st).1.length
        = st.1.length + l.length := by
  induction l with
  | nil => intro st; simp
  | cons a l ih =>
    intro st
    rw [List.foldl_cons, ih]
    simp [pushWeek]
    omega

/-- Claim C6: initializeMainApp always builds exactly 52 week slots,
whatever the year, birth date, today and stored data are. -/
theorem claim_C6_grid_has_52_slots (year : Int) (birthDate : Option Int)
    (today : Int) (store : Int → List WeekData) :
    (initializeMainApp year birthDate today store).weeks.length = 52 := by
  simp only [initializeMainApp, buildWeeks]
  rw [show List.range 7 = [0, 1, 2, 3, 4, 5, 6] from rfl]
  simp only [List.foldl_cons, List.foldl_nil]
  norm_num
  simp only [pushWeek_foldl_length, List.length_range, List.length_nil]

/-- Claim C7: the displayed year never precedes the birth year; a
request for an earlier year behaves exactly as a request for the birth
year, and navigation to a year before the birth year is refused. -/
theorem claim_C7_birth_year_clamp (year b today : Int)
    (store : Int → List WeekData) (transitionActive : Bool)
    (currentDisplayYear : Int) :
    yearOfDay b ≤ (initializeMainApp year (some b) today store).currentDisplayYear
    ∧ (year < yearOfDay b →
        initializeMainApp year (some b) today store
          = initializeMainApp (yearOfDay b) (some b) today store
        ∧ navigateToYear year (some b) transitionActive currentDisplayYear = none) := by
  constructor
  · simp only [initializeMainApp, clampToBirthYear]
    split <;> omega
  · intro h
    constructor
    · have heq : clampToBirthYear year (some b) = clampToBirthYear (yearOfDay b) (some b) := by
        simp only [clampToBirthYear]
        split <;> split <;> omega
      simp only [initializeMainApp, heq]
    · simp only [navigateToYear]
      rw [if_pos h]

/-- Witness for claim C7: birth day 0 is 1970-01-01, so requesting 1969
behaves as requesting 1970 and navigating to 1969 is refused. -/
theorem claim_C7_witness :
    initializeMainApp 1969 (some 0) 0 (fun _ => [])
      = initializeMainApp (yearOfDay 0) (some 0) 0 (fun _ => [])
    ∧ navigateToYear 1969 (some 0) false 1970 = none :=
  (claim_C7_birth_year_clamp 1969 0 0 (fun _ => []) false 1970).2 (by decide)

/-- Claim C9: when nothing is persisted for the year, loadData does
return the fully-populated 52-element default; but when the persisted
entry for the year is corrupt (unparseable), it returns undefined,
contradicting the claim (and the source's own comment in the catch
block). -/
theorem claim_C9_loadData_corrupt (year currentYear : Int) (env : MigrationEnv) :
    loadData year currentYear env none (some StoredEntry.corrupt) = none
    ∧ loadData year currentYear env none none
        = some (List.replicate 52 ⟨some [], none⟩) := ⟨rfl, rfl⟩

/-- Claim C10: the hasData flag cached by updateState is true exactly
when the week's record has a non-empty memories array or a non-empty
legacy string memory field. -/
theorem claim_C10_hasData_iff (id currentDisplayYear : Int)
    (birthDate : Option Int) (today : Int) (d : WeekData) :
    (updateState id currentDisplayYear birthDate today (some d)).hasData = true
      ↔ ((∃ ms, d.memories = some ms ∧ 0 < ms.length)
         ∨ (∃ s, d.memory = some s ∧ 0 < s.length)) := by
  simp only [updateState, checkHasData]
  cases hm : d.memories <;> cases hs : d.memory <;> simp [hm, hs]

/-- Witness for claim C10: a record with an empty memories array but a
non-empty legacy memory string has hasData = true. -/
theorem claim_C10_witness :
    (updateState 0 2024 none 19723 (some ⟨some [], some "m"⟩)).hasData = true :=
  (claim_C10_hasData_iff 0 2024 none 19723 ⟨some [], some "m"⟩).mpr
    (Or.inr ⟨"m", rfl, by decide⟩)

end Momentry
